import Mathlib

/-!
Verification of the Branding & Animation Studio backend
(`src/main.py`, `src/schemas.py`) against its specification.

The HTTP layer, the four pydantic schemas and the endpoint handlers are
embedded from the source.  The document-store layer (`database.py`:
`create_document`, `get_documents`) is not part of the source tree, so it
is modelled from the specification, section 4.2: `insert` serializes the
record's fields into a new document of the named collection and returns a
fresh opaque string identifier, `find` returns at most `limit` documents
of the collection matching an exact-equality filter, in insertion order.
-/

deriving instance DecidableEq for Except

namespace StudioApi

/-- JSON-ish values that appear in request payloads and stored documents. -/
inductive Value where
  | str : String → Value
  | bool : Bool → Value
  | int : Int → Value
  | strList : List String → Value
  | null : Value
deriving DecidableEq, Repr

/-- A document / JSON object: an association list of field name to value,
in insertion order (Python dict semantics). -/
abbrev Doc := List (String × Value)

/-- Dictionary read, `doc.get(k)`: first binding of the key, if any. -/
def getVal : Doc → String → Option Value
  | [], _ => none
  | (k', v) :: rest, k => if k' = k then some v else getVal rest k

/-- Dictionary write, `doc[k] = v`: update in place, new keys go last. -/
def setVal : Doc → String → Value → Doc
  | [], k, v => [(k, v)]
  | (k', v') :: rest, k, v =>
      if k' = k then (k, v) :: rest else (k', v') :: setVal rest k v

/-- Dictionary delete, `doc.pop(k, None)`: drop every binding of the key. -/
def delKey : Doc → String → Doc
  | [], _ => []
  | (k', v') :: rest, k =>
      if k' = k then delKey rest k else (k', v') :: delKey rest k

/-- Python `str(...)` on the result of `doc.get("_id")` (`None` prints as
"None"; stored identifiers are strings already). -/
def pyStr : Option Value → String
  | some (Value.str s) => s
  | some (Value.bool b) => if b then "True" else "False"
  | some (Value.int n) => toString n
  | some (Value.strList _) => "list"
  | some Value.null => "None"
  | none => "None"

/-- `serialize_doc` from `src/main.py`: on a non-empty document, set
`doc["id"] = str(doc.get("_id"))` then `doc.pop("_id", None)`. -/
def serialize_doc (doc : Doc) : Doc :=
  if doc.isEmpty then doc
  else delKey (setVal doc "id" (Value.str (pyStr (getVal doc "_id")))) "_id"

/-- The document store: the insertion log of (collection, document) pairs,
a counter generating fresh identifiers, and a count of store invocations. -/
structure Store where
  docs : List (String × Doc)
  nextId : Nat
  calls : Nat
deriving DecidableEq, Repr

/-- The fresh opaque identifier the store assigns to the next insert. -/
def freshId (s : Store) : String := "oid" ++ toString s.nextId

/-- Modelled from the spec: `database.create_document` (`database.py` is not
in the source tree).  Spec 4.2: `insert(collectionName, record) -> identifier`
serializes the record's fields (excluding any identifier) into a new document
in the named collection and returns the newly assigned unique identifier as
an opaque string; it fails with a StoreError when the store is unavailable or
the write is rejected.  The `oracle`, indexed by the invocation counter,
decides whether a given invocation succeeds.  Every invocation, failed or
not, bumps the invocation counter. -/
def create_document (oracle : Nat → Bool) (coll : String) (fields : Doc)
    (s : Store) : Except String String × Store :=
  if oracle s.calls then
    (Except.ok (freshId s),
      { docs := s.docs ++ [(coll, delKey fields "_id" ++ [("_id", Value.str (freshId s))])]
        nextId := s.nextId + 1
        calls := s.calls + 1 })
  else
    (Except.error "StoreError", { s with calls := s.calls + 1 })

/-- Exact-match equality test of a document against a filter mapping. -/
def matchesFilter (filt : Doc) (d : Doc) : Bool :=
  filt.all (fun p => decide (getVal d p.1 = some p.2))

/-- Modelled from the spec: `database.get_documents` (`database.py` is not in
the source tree).  Spec 4.2: `find(collectionName, filter, limit)` returns at
most `limit` documents of the collection matching the exact-equality filter,
in insertion order. -/
def get_documents (coll : String) (filt : Doc) (limit : Int) (s : Store) :
    List Doc :=
  ((((s.docs.filter (fun cd => decide (cd.1 = coll))).map Prod.snd).filter
      (matchesFilter filt)).take limit.toNat)

/-- Number of documents currently stored in a collection. -/
def countColl (s : Store) (coll : String) : Nat :=
  ((s.docs.filter (fun cd => decide (cd.1 = coll)))).length

/-! ### Field format checks (spec 4.1: URL fields must be well-formed
absolute URLs, the email field must match standard email syntax; the
concrete checkers of pydantic are third-party code, so these are modelled
from the spec). -/

/-- Whether `p` is a prefix of `s`, over character lists. -/
def hasPrefixChars : List Char → List Char → Bool
  | _, [] => true
  | [], _ :: _ => false
  | c :: cs, q :: qs => c == q && hasPrefixChars cs qs

/-- Modelled from the spec: a well-formed absolute http(s) URL — an
`http://` or `https://` scheme followed by a non-empty remainder. -/
def isValidHttpUrl (u : String) : Bool :=
  let cs := u.toList
  (hasPrefixChars cs "http://".toList && decide (7 < cs.length)) ||
  (hasPrefixChars cs "https://".toList && decide (8 < cs.length))

/-- Modelled from the spec: standard email-address syntax — exactly one
`@`, a non-empty local part, and a non-empty domain containing a dot that
is neither its first nor its last character. -/
def isValidEmail (e : String) : Bool :=
  let cs := e.toList
  let locl := cs.takeWhile (fun c => c != '@')
  let dom := (cs.dropWhile (fun c => c != '@')).drop 1
  decide (cs.count '@' = 1) && !locl.isEmpty && !dom.isEmpty &&
  dom.contains '.' && dom.head? != some '.' && dom.getLast? != some '.'

/-! ### Schema validation (from `src/schemas.py`).  A check returns
`some k` when field `k` is in error, `none` otherwise; validation collects
the offending field names, matching the machine-inspectable field-error
list of the validation layer. -/

/-- A required text field: present and a string. -/
def checkRequiredStr (p : Doc) (k : String) : Option String :=
  match getVal p k with
  | some (Value.str _) => none
  | _ => some k

/-- An optional text field: absent, null, or a string. -/
def checkOptStr (p : Doc) (k : String) : Option String :=
  match getVal p k with
  | none => none
  | some Value.null => none
  | some (Value.str _) => none
  | some _ => some k

/-- An optional URL field: absent, null, or a well-formed absolute URL. -/
def checkOptUrl (p : Doc) (k : String) : Option String :=
  match getVal p k with
  | none => none
  | some Value.null => none
  | some (Value.str u) => if isValidHttpUrl u then none else some k
  | some _ => some k

/-- A required email field: present, a string, and valid email syntax. -/
def checkEmailField (p : Doc) (k : String) : Option String :=
  match getVal p k with
  | some (Value.str e) => if isValidEmail e then none else some k
  | _ => some k

/-- A list-of-text field with default: absent or a list of strings. -/
def checkTagsField (p : Doc) (k : String) : Option String :=
  match getVal p k with
  | none => none
  | some (Value.strList _) => none
  | _ => some k

/-- A boolean field with default: absent or a boolean. -/
def checkBoolField (p : Doc) (k : String) : Option String :=
  match getVal p k with
  | none => none
  | some (Value.bool _) => none
  | _ => some k

/-- An optional integer field: absent, null, or an integer. -/
def checkOptIntField (p : Doc) (k : String) : Option String :=
  match getVal p k with
  | none => none
  | some Value.null => none
  | some (Value.int _) => none
  | _ => some k

/-- String extraction used after a successful check. -/
def getStr (p : Doc) (k : String) : String :=
  match getVal p k with
  | some (Value.str s) => s
  | _ => ""

def getOptStr (p : Doc) (k : String) : Option String :=
  match getVal p k with
  | some (Value.str s) => some s
  | _ => none

def getTags (p : Doc) (k : String) : List String :=
  match getVal p k with
  | some (Value.strList l) => l
  | _ => []

def getBoolD (p : Doc) (k : String) (d : Bool) : Bool :=
  match getVal p k with
  | some (Value.bool b) => b
  | _ => d

def getOptInt (p : Doc) (k : String) : Option Int :=
  match getVal p k with
  | some (Value.int n) => some n
  | _ => none

def optStrVal : Option String → Value
  | some s => Value.str s
  | none => Value.null

def optIntVal : Option Int → Value
  | some n => Value.int n
  | none => Value.null

/-- `Project` from `src/schemas.py`. -/
structure Project where
  title : String
  category : String
  description : Option String := none
  image_url : Option String := none
  video_url : Option String := none
  tags : List String := []
  featured : Bool := false
  order : Option Int := none
deriving DecidableEq, Repr

/-- `Testimonial` from `src/schemas.py`. -/
structure Testimonial where
  name : String
  role : Option String := none
  company : Option String := none
  quote : String
  avatar_url : Option String := none
deriving DecidableEq, Repr

/-- `Client` from `src/schemas.py`. -/
structure Client where
  name : String
  website : Option String := none
  logo_url : Option String := none
deriving DecidableEq, Repr

/-- `Message` from `src/schemas.py`. -/
structure Message where
  name : String
  email : String
  company : Option String := none
  message : String
deriving DecidableEq, Repr

/-- The required fields of each schema. -/
def projectRequired : List String := ["title", "category"]
def testimonialRequired : List String := ["name", "quote"]
def clientRequired : List String := ["name"]
def messageRequired : List String := ["name", "email", "message"]

/-- Field errors of a `Project` payload, in field-declaration order. -/
def projectErrors (p : Doc) : List String :=
  (checkRequiredStr p "title").toList ++ (checkRequiredStr p "category").toList ++
  (checkOptStr p "description").toList ++ (checkOptUrl p "image_url").toList ++
  (checkOptUrl p "video_url").toList ++ (checkTagsField p "tags").toList ++
  (checkBoolField p "featured").toList ++ (checkOptIntField p "order").toList

/-- Validation of a `Project` payload: either the validated record (with
documented defaults for absent optional fields) or the offending fields. -/
def validateProject (p : Doc) : Except (List String) Project :=
  if projectErrors p = [] then
    Except.ok
      { title := getStr p "title", category := getStr p "category"
        description := getOptStr p "description"
        image_url := getOptStr p "image_url", video_url := getOptStr p "video_url"
        tags := getTags p "tags", featured := getBoolD p "featured" false
        order := getOptInt p "order" }
  else Except.error (projectErrors p)

def testimonialErrors (p : Doc) : List String :=
  (checkRequiredStr p "name").toList ++ (checkOptStr p "role").toList ++
  (checkOptStr p "company").toList ++ (checkRequiredStr p "quote").toList ++
  (checkOptUrl p "avatar_url").toList

def validateTestimonial (p : Doc) : Except (List String) Testimonial :=
  if testimonialErrors p = [] then
    Except.ok
      { name := getStr p "name", role := getOptStr p "role"
        company := getOptStr p "company", quote := getStr p "quote"
        avatar_url := getOptStr p "avatar_url" }
  else Except.error (testimonialErrors p)

def clientErrors (p : Doc) : List String :=
  (checkRequiredStr p "name").toList ++ (checkOptUrl p "website").toList ++
  (checkOptUrl p "logo_url").toList

def validateClient (p : Doc) : Except (List String) Client :=
  if clientErrors p = [] then
    Except.ok
      { name := getStr p "name", website := getOptStr p "website"
        logo_url := getOptStr p "logo_url" }
  else Except.error (clientErrors p)

def messageErrors (p : Doc) : List String :=
  (checkRequiredStr p "name").toList ++ (checkEmailField p "email").toList ++
  (checkOptStr p "company").toList ++ (checkRequiredStr p "message").toList

def validateMessage (p : Doc) : Except (List String) Message :=
  if messageErrors p = [] then
    Except.ok
      { name := getStr p "name", email := getStr p "email"
        company := getOptStr p "company", message := getStr p "message" }
  else Except.error (messageErrors p)

/-- The serialized fields of a validated `Project`, in declaration order
(what the store receives on insert). -/
def projectToDoc (p : Project) : Doc :=
  [("title", Value.str p.title), ("category", Value.str p.category),
   ("description", optStrVal p.description),
   ("image_url", optStrVal p.image_url), ("video_url", optStrVal p.video_url),
   ("tags", Value.strList p.tags), ("featured", Value.bool p.featured),
   ("order", optIntVal p.order)]

def testimonialToDoc (t : Testimonial) : Doc :=
  [("name", Value.str t.name), ("role", optStrVal t.role),
   ("company", optStrVal t.company), ("quote", Value.str t.quote),
   ("avatar_url", optStrVal t.avatar_url)]

def clientToDoc (c : Client) : Doc :=
  [("name", Value.str c.name), ("website", optStrVal c.website),
   ("logo_url", optStrVal c.logo_url)]

def messageToDoc (m : Message) : Doc :=
  [("name", Value.str m.name), ("email", Value.str m.email),
   ("company", optStrVal m.company), ("message", Value.str m.message)]

/-! ### HTTP layer (from `src/main.py`).  FastAPI rejects a payload that
fails schema validation with a 422 carrying the field errors, before the
handler body (and hence the store) is reached. -/

/-- An HTTP response of this API. -/
inductive Response where
  | json : Doc → Response
  | jsonList : List Doc → Response
  | httpError : Nat → String → Response
  | validationError : Nat → List String → Response
deriving DecidableEq, Repr

/-- `POST /api/projects` (`create_project` in `src/main.py`). -/
def create_project (oracle : Nat → Bool) (payload : Doc) (s : Store) :
    Response × Store :=
  match validateProject payload with
  | Except.error fs => (Response.validationError 422 fs, s)
  | Except.ok p =>
    match create_document oracle "project" (projectToDoc p) s with
    | (Except.ok i, s2) => (Response.json [("id", Value.str i)], s2)
    | (Except.error e, s2) => (Response.httpError 500 e, s2)

/-- The query filter built by `list_projects`: `if category:` adds an exact
category match (skipped for `None` and for the falsy empty string), and
`if featured is not None:` adds an exact featured match. -/
def buildProjectFilter (category : Option String) (featured : Option Bool) :
    Doc :=
  (match category with
   | some c => if c = "" then [] else [("category", Value.str c)]
   | none => []) ++
  (match featured with
   | some b => [("featured", Value.bool b)]
   | none => [])

/-- `GET /api/projects` (`list_projects` in `src/main.py`; `limit`
defaults to 100 at the HTTP layer). -/
def list_projects (category : Option String) (featured : Option Bool)
    (limit : Int) (s : Store) : List Doc :=
  (get_documents "project" (buildProjectFilter category featured) limit s).map
    serialize_doc

/-- `POST /api/testimonials` (`create_testimonial` in `src/main.py`). -/
def create_testimonial (oracle : Nat → Bool) (payload : Doc) (s : Store) :
    Response × Store :=
  match validateTestimonial payload with
  | Except.error fs => (Response.validationError 422 fs, s)
  | Except.ok t =>
    match create_document oracle "testimonial" (testimonialToDoc t) s with
    | (Except.ok i, s2) => (Response.json [("id", Value.str i)], s2)
    | (Except.error e, s2) => (Response.httpError 500 e, s2)

/-- `GET /api/testimonials` (`list_testimonials` in `src/main.py`; `limit`
defaults to 50 at the HTTP layer). -/
def list_testimonials (limit : Int) (s : Store) : List Doc :=
  (get_documents "testimonial" [] limit s).map serialize_doc

/-- `POST /api/clients` (`create_client` in `src/main.py`). -/
def create_client (oracle : Nat → Bool) (payload : Doc) (s : Store) :
    Response × Store :=
  match validateClient payload with
  | Except.error fs => (Response.validationError 422 fs, s)
  | Except.ok c =>
    match create_document oracle "client" (clientToDoc c) s with
    | (Except.ok i, s2) => (Response.json [("id", Value.str i)], s2)
    | (Except.error e, s2) => (Response.httpError 500 e, s2)

/-- `GET /api/clients` (`list_clients` in `src/main.py`; `limit` defaults
to 100 at the HTTP layer). -/
def list_clients (limit : Int) (s : Store) : List Doc :=
  (get_documents "client" [] limit s).map serialize_doc

/-- The API exposes no GET listing for messages; this is the store-level
find-plus-serialize composition that every listing endpoint performs,
applied to the `message` collection, used to state the round-trip
property for messages. -/
def find_messages (limit : Int) (s : Store) : List Doc :=
  (get_documents "message" [] limit s).map serialize_doc

/-- The possible outcomes of the outbound webhook call. -/
inductive NotifyOutcome where
  | success : NotifyOutcome
  | timeout : NotifyOutcome
  | connRefused : NotifyOutcome
  | non2xx : Nat → NotifyOutcome
  | exc : NotifyOutcome
deriving DecidableEq, Repr

/-- The webhook call `requests.post(webhook, json=payload, timeout=5)`:
its outcome is whatever the network yields. -/
def sendWebhook (outcome : NotifyOutcome) (url : String) (payload : Doc) :
    NotifyOutcome :=
  let _ := url
  let _ := payload
  outcome

/-- The JSON payload sent to the webhook on message creation. -/
def notifyPayload (m : Message) (newId : String) : Doc :=
  [("type", Value.str "new_message"), ("name", Value.str m.name),
   ("email", Value.str m.email), ("company", optStrVal m.company),
   ("message", Value.str m.message), ("message_id", Value.str newId)]

/-- `POST /api/messages` (`submit_message` in `src/main.py`): insert, then
best-effort webhook notification whose outcome is discarded by the inner
`try/except: pass`, then the success body. -/
def submit_message (oracle : Nat → Bool) (webhook : Option String)
    (outcome : NotifyOutcome) (payload : Doc) (s : Store) :
    Response × Store :=
  match validateMessage payload with
  | Except.error fs => (Response.validationError 422 fs, s)
  | Except.ok m =>
    match create_document oracle "message" (messageToDoc m) s with
    | (Except.error e, s2) => (Response.httpError 500 e, s2)
    | (Except.ok newId, s2) =>
      let _attempt : Option NotifyOutcome :=
        match webhook with
        | some url =>
            if url = "" then none
            else some (sendWebhook outcome url (notifyPayload m newId))
        | none => none
      (Response.json [("id", Value.str newId), ("status", Value.str "received")],
        s2)

/-! ### Seed endpoint (from `src/main.py`). -/

/-- The fixed sample projects of `seed_demo_content`. -/
def sampleProjects : List Doc :=
  [[("title", Value.str "NOVA — Modular Branding Kit"),
    ("category", Value.str "Branding"),
    ("description", Value.str "A restrained visual system with flexible type scales and a mono grid."),
    ("image_url", Value.str "https://images.unsplash.com/photo-1512295767273-ac109ac3acfa?q=80&w=1600&auto=format&fit=crop"),
    ("tags", Value.strList ["Identity", "Guidelines"]),
    ("featured", Value.bool true), ("order", Value.int 1)],
   [("title", Value.str "Eclipse OS — Motion Language"),
    ("category", Value.str "Motion"),
    ("description", Value.str "A responsive motion spec for product UI and launch content."),
    ("image_url", Value.str "https://images.unsplash.com/photo-1531746020798-e6953c6e8e04?q=80&w=1600&auto=format&fit=crop"),
    ("tags", Value.strList ["UI", "Spec"]),
    ("featured", Value.bool true), ("order", Value.int 2)],
   [("title", Value.str "Orbit — 3D Brand Toolkit"),
    ("category", Value.str "3D"),
    ("description", Value.str "Procedural materials and light rigs for consistent content at scale."),
    ("image_url", Value.str "https://images.unsplash.com/photo-1495567720989-cebdbdd97913?q=80&w=1600&auto=format&fit=crop"),
    ("tags", Value.strList ["Lookdev", "Toolkit"]),
    ("featured", Value.bool false), ("order", Value.int 3)],
   [("title", Value.str "Pico — Character Animation Pack"),
    ("category", Value.str "Animation"),
    ("description", Value.str "A library of expressive micro-animations for onboarding and support."),
    ("image_url", Value.str "https://images.unsplash.com/photo-1545239351-1141bd82e8a6?q=80&w=1600&auto=format&fit=crop"),
    ("tags", Value.strList ["Rigging", "2D"]),
    ("featured", Value.bool false), ("order", Value.int 4)]]

/-- The fixed sample testimonials of `seed_demo_content`. -/
def sampleTestimonials : List Doc :=
  [[("name", Value.str "Alex Kim"), ("role", Value.str "Head of Brand"),
    ("company", Value.str "Vector"),
    ("quote", Value.str "They distilled our messy vision into a simple system we use every day.")],
   [("name", Value.str "Riya Patel"),
    ("role", Value.str "Product Design Lead"), ("company", Value.str "Sona"),
    ("quote", Value.str "Crisp motion work that elevated the whole product.")]]

/-- The fixed sample clients of `seed_demo_content`. -/
def sampleClients : List Doc :=
  [[("name", Value.str "Linear"), ("website", Value.str "https://linear.app"),
    ("logo_url", Value.str "https://avatars.githubusercontent.com/u/56582216?s=200&v=4")],
   [("name", Value.str "Vercel"), ("website", Value.str "https://vercel.com"),
    ("logo_url", Value.str "https://assets.vercel.com/image/upload/q_auto/front/favicon/vercel/57x57.png")],
   [("name", Value.str "Raycast"), ("website", Value.str "https://raycast.com"),
    ("logo_url", Value.str "https://avatars.githubusercontent.com/u/57921518?s=200&v=4")]]

/-- One seeding loop: each element is the serialized fields of a sample
that validated (`none` when validation raised), inserted under a
`try/except: pass` that skips any failure and continues the batch. -/
def seedLoop (oracle : Nat → Bool) (coll : String) :
    List (Option Doc) → Store → Store
  | [], s => s
  | v :: rest, s =>
      seedLoop oracle coll rest
        (match v with
         | some fields => (create_document oracle coll fields s).2
         | none => s)

/-- `POST /api/seed` (`seed_demo_content` in `src/main.py`): 401 when
`not admin_token` (unset or empty) or the `X-Admin-Token` header differs
from it; otherwise insert the three sample batches, skipping individual
failures, and answer `{status: "ok"}`. -/
def seed_demo_content (oracle : Nat → Bool) (adminToken : Option String)
    (xAdminToken : Option String) (s : Store) : Response × Store :=
  match adminToken with
  | none => (Response.httpError 401 "Unauthorized", s)
  | some tok =>
    if tok = "" ∨ xAdminToken ≠ some tok then
      (Response.httpError 401 "Unauthorized", s)
    else
      let s1 := seedLoop oracle "project"
        (sampleProjects.map (fun p => (validateProject p).toOption.map projectToDoc)) s
      let s2 := seedLoop oracle "testimonial"
        (sampleTestimonials.map (fun t => (validateTestimonial t).toOption.map testimonialToDoc)) s1
      let s3 := seedLoop oracle "client"
        (sampleClients.map (fun c => (validateClient c).toOption.map clientToDoc)) s2
      (Response.json [("status", Value.str "ok")], s3)

/-- An empty store, used to instantiate theorems at concrete inputs. -/
def store0 : Store := { docs := [], nextId := 0, calls := 0 }

/-- The document the store holds after inserting `fields` under id `i`. -/
def insertedDoc (fields : Doc) (i : String) : Doc :=
  delKey fields "_id" ++ [("_id", Value.str i)]

/-- The store state after a successful insert into `coll`. -/
def insertedStore (s : Store) (coll : String) (fields : Doc) : Store :=
  { docs := s.docs ++ [(coll, insertedDoc fields (freshId s))]
    nextId := s.nextId + 1
    calls := s.calls + 1 }

/-! ### Helper lemmas -/

lemma create_document_ok (oracle : Nat → Bool) (coll : String) (fields : Doc)
    (s : Store) (hor : oracle s.calls = true) :
    create_document oracle coll fields s =
      (Except.ok (freshId s), insertedStore s coll fields) := by
  simp [create_document, hor, insertedStore, insertedDoc]

lemma create_document_calls (oracle : Nat → Bool) (coll : String)
    (fields : Doc) (s : Store) :
    ((create_document oracle coll fields s).2).calls = s.calls + 1 := by
  unfold create_document
  split <;> rfl

lemma freshId_ne_empty (s : Store) : freshId s ≠ "" := by
  intro h
  have h2 := congrArg String.length h
  simp [freshId, String.length_append] at h2
  exact absurd h2.1 (by decide)

lemma getVal_setVal_ne (d : Doc) (k k' : String) (v : Value) (h : k' ≠ k) :
    getVal (setVal d k' v) k = getVal d k := by
  induction d with
  | nil => simp [setVal, getVal, h]
  | cons a rest ih =>
      obtain ⟨ka, va⟩ := a
      by_cases hk : ka = k'
      · subst hk
        simp [setVal, getVal, h]
      · simp [setVal, hk, getVal, ih]

lemma getVal_delKey_ne (d : Doc) (k k' : String) (h : k' ≠ k) :
    getVal (delKey d k') k = getVal d k := by
  induction d with
  | nil => simp [delKey]
  | cons a rest ih =>
      obtain ⟨ka, va⟩ := a
      by_cases hk : ka = k'
      · subst hk
        simp [delKey, getVal, h, ih]
      · simp [delKey, hk, getVal, ih]

lemma getVal_serialize_ne (d : Doc) (k : String) (h1 : k ≠ "id")
    (h2 : k ≠ "_id") : getVal (serialize_doc d) k = getVal d k := by
  unfold serialize_doc
  split
  · rfl
  · rw [getVal_delKey_ne _ _ _ (Ne.symm h2), getVal_setVal_ne _ _ _ _ (Ne.symm h1)]

lemma matchesFilter_mem {filt d : Doc} (h : matchesFilter filt d = true)
    {k : String} {v : Value} (hkv : (k, v) ∈ filt) : getVal d k = some v := by
  unfold matchesFilter at h
  have := List.all_eq_true.mp h (k, v) hkv
  exact of_decide_eq_true this

lemma seedLoop_calls (oracle : Nat → Bool) (coll : String)
    (vds : List (Option Doc)) (s : Store) :
    (seedLoop oracle coll vds s).calls =
      s.calls + vds.countP (fun v => v.isSome) := by
  induction vds generalizing s with
  | nil => simp [seedLoop]
  | cons v rest ih =>
      cases v with
      | none => simp [seedLoop, ih, List.countP_cons]
      | some fields =>
          simp [seedLoop, ih, List.countP_cons, create_document_calls]
          omega

/-! ### Claim theorems -/

/-- C3: POST /api/seed returns 401 and inserts nothing whenever the admin
secret is unset in configuration or the caller's X-Admin-Token header is
absent or does not equal the secret; in particular, when no secret is
configured, seeding is locked for every request regardless of any header
the caller sends. -/
theorem c3_seed_unauthorized_locked (oracle : Nat → Bool)
    (envTok hdr : Option String) (s : Store)
    (h : envTok = none ∨ hdr = none ∨ ∀ t, envTok = some t → hdr ≠ some t) :
    seed_demo_content oracle envTok hdr s =
      (Response.httpError 401 "Unauthorized", s) := by
  cases envTok with
  | none => rfl
  | some t =>
      have hcond : t = "" ∨ hdr ≠ some t := by
        rcases h with h | h | h
        · exact absurd h (by simp)
        · right; rw [h]; simp
        · right; exact h t rfl
      simp only [seed_demo_content]
      rw [if_pos hcond]

theorem c3_witness :
    seed_demo_content (fun _ => true) none (some "anything") store0 =
      (Response.httpError 401 "Unauthorized", store0) :=
  c3_seed_unauthorized_locked (fun _ => true) none (some "anything") store0
    (Or.inl rfl)

/-- C10: if the configured admin token is the empty string, POST /api/seed
returns 401 for every request and inserts nothing, even when the caller
supplies an X-Admin-Token header that is also the empty string (an empty
configured secret behaves as unset, i.e. locked). -/
theorem c10_empty_admin_token_locked (oracle : Nat → Bool)
    (hdr : Option String) (s : Store) :
    seed_demo_content oracle (some "") hdr s =
      (Response.httpError 401 "Unauthorized", s) := by
  simp only [seed_demo_content]
  rw [if_pos (Or.inl trivial)]

/-- C9: on GET /api/projects, a category query parameter equal to the empty
string is treated as if the parameter were absent: no category equality
filter is applied to the store query. -/
theorem c9_empty_category_no_filter (ft : Option Bool) (lim : Int)
    (s : Store) :
    list_projects (some "") ft lim s = list_projects none ft lim s := rfl

/-- C8: the spec requires the Project title to be non-empty text, but the
code's validation layer types `title` as a plain string, so a Project
payload whose title is the empty string is accepted by POST /api/projects:
it is persisted and answered with 200 and an id, not rejected with a 4xx
validation error.  This theorem evaluates the endpoint at the failing
input. -/
theorem c8_empty_title_accepted_by_code :
    create_project (fun _ => true)
        [("title", Value.str ""), ("category", Value.str "Branding")] store0 =
      (Response.json [("id", Value.str "oid0")],
        { docs := [("project",
            [("title", Value.str ""), ("category", Value.str "Branding"),
             ("description", Value.null), ("image_url", Value.null),
             ("video_url", Value.null), ("tags", Value.strList []),
             ("featured", Value.bool false), ("order", Value.null),
             ("_id", Value.str "oid0")])]
          nextId := 1, calls := 1 }) := by decide

/-- C6: for every listing endpoint and every integer N ≥ 0, a GET request
with query parameter limit=N returns at most N records. -/
theorem c6_limit_bounds_results (N : Nat) (cat : Option String)
    (ft : Option Bool) (s : Store) :
    (list_projects cat ft (N : Int) s).length ≤ N ∧
    (list_testimonials (N : Int) s).length ≤ N ∧
    (list_clients (N : Int) s).length ≤ N := by
  refine ⟨?_, ?_, ?_⟩ <;>
    simp [list_projects, list_testimonials, list_clients, get_documents,
      List.length_take]

/-! ### Validation-failure helper lemmas -/

lemma validateProject_error_of_mem (p : Doc) {k : String}
    (hk : k ∈ projectErrors p) :
    validateProject p = Except.error (projectErrors p) := by
  unfold validateProject
  rw [if_neg (List.ne_nil_of_mem hk)]

lemma validateTestimonial_error_of_mem (p : Doc) {k : String}
    (hk : k ∈ testimonialErrors p) :
    validateTestimonial p = Except.error (testimonialErrors p) := by
  unfold validateTestimonial
  rw [if_neg (List.ne_nil_of_mem hk)]

lemma validateClient_error_of_mem (p : Doc) {k : String}
    (hk : k ∈ clientErrors p) :
    validateClient p = Except.error (clientErrors p) := by
  unfold validateClient
  rw [if_neg (List.ne_nil_of_mem hk)]

lemma validateMessage_error_of_mem (p : Doc) {k : String}
    (hk : k ∈ messageErrors p) :
    validateMessage p = Except.error (messageErrors p) := by
  unfold validateMessage
  rw [if_neg (List.ne_nil_of_mem hk)]

lemma mem_projectErrors_of_missing (p : Doc) (k : String)
    (hk : k ∈ projectRequired) (h : getVal p k = none) :
    k ∈ projectErrors p := by
  unfold projectRequired at hk
  simp only [List.mem_cons, List.not_mem_nil, or_false] at hk
  rcases hk with rfl | rfl
  · have hc : checkRequiredStr p "title" = some "title" := by
      simp [checkRequiredStr, h]
    unfold projectErrors
    rw [hc]; simp
  · have hc : checkRequiredStr p "category" = some "category" := by
      simp [checkRequiredStr, h]
    unfold projectErrors
    rw [hc]; simp

lemma mem_testimonialErrors_of_missing (p : Doc) (k : String)
    (hk : k ∈ testimonialRequired) (h : getVal p k = none) :
    k ∈ testimonialErrors p := by
  unfold testimonialRequired at hk
  simp only [List.mem_cons, List.not_mem_nil, or_false] at hk
  rcases hk with rfl | rfl
  · have hc : checkRequiredStr p "name" = some "name" := by
      simp [checkRequiredStr, h]
    unfold testimonialErrors
    rw [hc]; simp
  · have hc : checkRequiredStr p "quote" = some "quote" := by
      simp [checkRequiredStr, h]
    unfold testimonialErrors
    rw [hc]; simp

lemma mem_clientErrors_of_missing (p : Doc) (k : String)
    (hk : k ∈ clientRequired) (h : getVal p k = none) :
    k ∈ clientErrors p := by
  unfold clientRequired at hk
  simp only [List.mem_cons, List.not_mem_nil, or_false] at hk
  rcases hk with rfl
  have hc : checkRequiredStr p "name" = some "name" := by
    simp [checkRequiredStr, h]
  unfold clientErrors
  rw [hc]; simp

lemma mem_messageErrors_of_missing (p : Doc) (k : String)
    (hk : k ∈ messageRequired) (h : getVal p k = none) :
    k ∈ messageErrors p := by
  unfold messageRequired at hk
  simp only [List.mem_cons, List.not_mem_nil, or_false] at hk
  rcases hk with rfl | rfl | rfl
  · have hc : checkRequiredStr p "name" = some "name" := by
      simp [checkRequiredStr, h]
    unfold messageErrors
    rw [hc]; simp
  · have hc : checkEmailField p "email" = some "email" := by
      simp [checkEmailField, h]
    unfold messageErrors
    rw [hc]; simp
  · have hc : checkRequiredStr p "message" = some "message" := by
      simp [checkRequiredStr, h]
    unfold messageErrors
    rw [hc]; simp

lemma mem_messageErrors_email_invalid (p : Doc) (e : String)
    (h1 : getVal p "email" = some (Value.str e))
    (h2 : isValidEmail e = false) : "email" ∈ messageErrors p := by
  have hc : checkEmailField p "email" = some "email" := by
    simp [checkEmailField, h1, h2]
  unfold messageErrors
  rw [hc]; simp

lemma mem_projectErrors_url_invalid (p : Doc) (u : String)
    (h1 : getVal p "image_url" = some (Value.str u))
    (h2 : isValidHttpUrl u = false) : "image_url" ∈ projectErrors p := by
  have hc : checkOptUrl p "image_url" = some "image_url" := by
    simp [checkOptUrl, h1, h2]
  unfold projectErrors
  rw [hc]; simp

/-- C2: a payload missing a required field (for example a Message without
email) or carrying a malformed email or URL value makes the creation
endpoint answer a 4xx (422) response that carries the offending field
names, leaves the store exactly as it was (no document persisted, store
layer never invoked), and every validation failure is returned this way
before the store is reached. -/
theorem c2_invalid_payload_rejected_before_store :
    (∀ (oracle : Nat → Bool) (payload : Doc) (s : Store) (fs : List String),
        validateProject payload = Except.error fs →
        create_project oracle payload s = (Response.validationError 422 fs, s)) ∧
    (∀ (oracle : Nat → Bool) (payload : Doc) (s : Store) (fs : List String),
        validateTestimonial payload = Except.error fs →
        create_testimonial oracle payload s = (Response.validationError 422 fs, s)) ∧
    (∀ (oracle : Nat → Bool) (payload : Doc) (s : Store) (fs : List String),
        validateClient payload = Except.error fs →
        create_client oracle payload s = (Response.validationError 422 fs, s)) ∧
    (∀ (oracle : Nat → Bool) (webhook : Option String) (n : NotifyOutcome)
        (payload : Doc) (s : Store) (fs : List String),
        validateMessage payload = Except.error fs →
        submit_message oracle webhook n payload s = (Response.validationError 422 fs, s)) ∧
    (∀ (payload : Doc) (k : String), k ∈ projectRequired →
        getVal payload k = none →
        ∃ fs, validateProject payload = Except.error fs ∧ k ∈ fs) ∧
    (∀ (payload : Doc) (k : String), k ∈ testimonialRequired →
        getVal payload k = none →
        ∃ fs, validateTestimonial payload = Except.error fs ∧ k ∈ fs) ∧
    (∀ (payload : Doc) (k : String), k ∈ clientRequired →
        getVal payload k = none →
        ∃ fs, validateClient payload = Except.error fs ∧ k ∈ fs) ∧
    (∀ (payload : Doc) (k : String), k ∈ messageRequired →
        getVal payload k = none →
        ∃ fs, validateMessage payload = Except.error fs ∧ k ∈ fs) ∧
    (∀ (payload : Doc) (e : String),
        getVal payload "email" = some (Value.str e) → isValidEmail e = false →
        ∃ fs, validateMessage payload = Except.error fs ∧ "email" ∈ fs) ∧
    (∀ (payload : Doc) (u : String),
        getVal payload "image_url" = some (Value.str u) →
        isValidHttpUrl u = false →
        ∃ fs, validateProject payload = Except.error fs ∧ "image_url" ∈ fs) := by
  refine ⟨?_, ?_, ?_, ?_, ?_, ?_, ?_, ?_, ?_, ?_⟩
  · intro oracle payload s fs h
    simp [create_project, h]
  · intro oracle payload s fs h
    simp [create_testimonial, h]
  · intro oracle payload s fs h
    simp [create_client, h]
  · intro oracle webhook n payload s fs h
    simp [submit_message, h]
  · intro payload k hk h
    have hm := mem_projectErrors_of_missing payload k hk h
    exact ⟨projectErrors payload, validateProject_error_of_mem payload hm, hm⟩
  · intro payload k hk h
    have hm := mem_testimonialErrors_of_missing payload k hk h
    exact ⟨testimonialErrors payload, validateTestimonial_error_of_mem payload hm, hm⟩
  · intro payload k hk h
    have hm := mem_clientErrors_of_missing payload k hk h
    exact ⟨clientErrors payload, validateClient_error_of_mem payload hm, hm⟩
  · intro payload k hk h
    have hm := mem_messageErrors_of_missing payload k hk h
    exact ⟨messageErrors payload, validateMessage_error_of_mem payload hm, hm⟩
  · intro payload e h1 h2
    have hm := mem_messageErrors_email_invalid payload e h1 h2
    exact ⟨messageErrors payload, validateMessage_error_of_mem payload hm, hm⟩
  · intro payload u h1 h2
    have hm := mem_projectErrors_url_invalid payload u h1 h2
    exact ⟨projectErrors payload, validateProject_error_of_mem payload hm, hm⟩

theorem c2_witness :
    submit_message (fun _ => true) none NotifyOutcome.success
        [("name", Value.str "A"), ("message", Value.str "hi")] store0 =
      (Response.validationError 422 ["email"], store0) ∧
    (∃ fs, validateMessage [("name", Value.str "A"), ("message", Value.str "hi")] =
        Except.error fs ∧ "email" ∈ fs) ∧
    (∃ fs, validateProject
        [("title", Value.str "T"), ("category", Value.str "C"),
         ("image_url", Value.str "not-a-url")] =
        Except.error fs ∧ "image_url" ∈ fs) :=
  ⟨c2_invalid_payload_rejected_before_store.2.2.2.1 (fun _ => true) none
      NotifyOutcome.success _ store0 ["email"] (by decide),
   c2_invalid_payload_rejected_before_store.2.2.2.2.2.2.2.1 _ "email"
      (by decide) (by decide),
   c2_invalid_payload_rejected_before_store.2.2.2.2.2.2.2.2.2 _ "not-a-url"
      (by decide) (by decide)⟩

/-- C4: on POST /api/messages, after a successful store insert the endpoint
returns the id with status "received", and the outcome of the optional
outbound webhook notification (timeout, connection refused, non-2xx,
anything) is swallowed: the response and resulting state are identical for
every outcome. -/
theorem c4_webhook_failure_swallowed (oracle : Nat → Bool)
    (webhook : Option String) (n1 n2 : NotifyOutcome) (payload : Doc)
    (m : Message) (s : Store)
    (hv : validateMessage payload = Except.ok m)
    (hor : oracle s.calls = true) :
    submit_message oracle webhook n1 payload s =
      (Response.json [("id", Value.str (freshId s)),
        ("status", Value.str "received")],
        insertedStore s "message" (messageToDoc m)) ∧
    submit_message oracle webhook n1 payload s =
      submit_message oracle webhook n2 payload s := by
  constructor
  · simp [submit_message, hv, create_document_ok _ _ _ _ hor]
  · rfl

def msgPayload0 : Doc :=
  [("name", Value.str "A"), ("email", Value.str "a@b.com"),
   ("message", Value.str "hi")]

def msg0 : Message := { name := "A", email := "a@b.com", message := "hi" }

theorem c4_witness :
    submit_message (fun _ => true) (some "https://hook.example")
        NotifyOutcome.timeout msgPayload0 store0 =
      (Response.json [("id", Value.str (freshId store0)),
        ("status", Value.str "received")],
        insertedStore store0 "message" (messageToDoc msg0)) ∧
    submit_message (fun _ => true) (some "https://hook.example")
        NotifyOutcome.timeout msgPayload0 store0 =
      submit_message (fun _ => true) (some "https://hook.example")
        NotifyOutcome.success msgPayload0 store0 :=
  c4_webhook_failure_swallowed (fun _ => true) (some "https://hook.example")
    NotifyOutcome.timeout NotifyOutcome.success msgPayload0 msg0 store0
    rfl rfl

/-- C7: when POST /api/seed is called with the correct token, the endpoint
returns status ok for every pattern of per-record insertion failures (the
oracle), and every one of the nine sample records is attempted — a failing
record is skipped without aborting the batch. -/
theorem c7_seed_skips_failed_records (oracle : Nat → Bool) (tok : String)
    (s : Store) (h : tok ≠ "") :
    ∃ s3, seed_demo_content oracle (some tok) (some tok) s =
        (Response.json [("status", Value.str "ok")], s3) ∧
      s3.calls = s.calls + 9 := by
  have hcond : ¬(tok = "" ∨ (some tok : Option String) ≠ some tok) := by
    push_neg
    exact ⟨h, rfl⟩
  refine ⟨seedLoop oracle "client"
      (sampleClients.map (fun c => (validateClient c).toOption.map clientToDoc))
      (seedLoop oracle "testimonial"
        (sampleTestimonials.map
          (fun t => (validateTestimonial t).toOption.map testimonialToDoc))
        (seedLoop oracle "project"
          (sampleProjects.map
            (fun p => (validateProject p).toOption.map projectToDoc)) s)),
    ?_, ?_⟩
  · simp only [seed_demo_content]
    rw [if_neg hcond]
  · rw [seedLoop_calls, seedLoop_calls, seedLoop_calls]
    have h1 : ((sampleProjects.map
        (fun p => (validateProject p).toOption.map projectToDoc)).countP
        (fun v => v.isSome)) = 4 := by decide
    have h2 : ((sampleTestimonials.map
        (fun t => (validateTestimonial t).toOption.map testimonialToDoc)).countP
        (fun v => v.isSome)) = 2 := by decide
    have h3 : ((sampleClients.map
        (fun c => (validateClient c).toOption.map clientToDoc)).countP
        (fun v => v.isSome)) = 3 := by decide
    rw [h1, h2, h3]

theorem c7_witness :
    ∃ s3, seed_demo_content (fun n => n % 2 = 0) (some "secret")
        (some "secret") store0 =
        (Response.json [("status", Value.str "ok")], s3) ∧
      s3.calls = store0.calls + 9 :=
  c7_seed_skips_failed_records (fun n => n % 2 = 0) "secret" store0
    (by decide)

/-- C5: GET /api/projects filtered by a featured value returns only records
whose featured field equals it, and filtered by a non-empty category string
returns only records whose category field equals that exact string — only
the equality filter built by the endpoint is applied. -/
theorem c5_project_filters_exact :
    (∀ (cat : Option String) (b : Bool) (lim : Int) (s : Store) (d : Doc),
        d ∈ list_projects cat (some b) lim s →
        getVal d "featured" = some (Value.bool b)) ∧
    (∀ (c : String) (ft : Option Bool) (lim : Int) (s : Store) (d : Doc),
        c ≠ "" → d ∈ list_projects (some c) ft lim s →
        getVal d "category" = some (Value.str c)) := by
  constructor
  · intro cat b lim s d hd
    simp only [list_projects, List.mem_map] at hd
    obtain ⟨d0, hd0, rfl⟩ := hd
    have hmf : matchesFilter (buildProjectFilter cat (some b)) d0 = true := by
      unfold get_documents at hd0
      have hmem := List.mem_of_mem_take hd0
      exact (List.mem_filter.mp hmem).2
    have hkv : ("featured", Value.bool b) ∈ buildProjectFilter cat (some b) := by
      simp [buildProjectFilter]
    rw [getVal_serialize_ne _ _ (by decide) (by decide)]
    exact matchesFilter_mem hmf hkv
  · intro c ft lim s d hc hd
    simp only [list_projects, List.mem_map] at hd
    obtain ⟨d0, hd0, rfl⟩ := hd
    have hmf : matchesFilter (buildProjectFilter (some c) ft) d0 = true := by
      unfold get_documents at hd0
      have hmem := List.mem_of_mem_take hd0
      exact (List.mem_filter.mp hmem).2
    have hkv : ("category", Value.str c) ∈ buildProjectFilter (some c) ft := by
      simp only [buildProjectFilter]
      rw [if_neg hc]
      simp
    rw [getVal_serialize_ne _ _ (by decide) (by decide)]
    exact matchesFilter_mem hmf hkv

/-- A store holding one featured Motion project, for witnesses. -/
def storeFeat : Store :=
  { docs := [("project",
      [("title", Value.str "E"), ("category", Value.str "Motion"),
       ("featured", Value.bool true), ("_id", Value.str "x1")])]
    nextId := 1, calls := 1 }

def featDoc : Doc :=
  [("title", Value.str "E"), ("category", Value.str "Motion"),
   ("featured", Value.bool true), ("id", Value.str "x1")]

theorem c5_witness :
    getVal featDoc "featured" = some (Value.bool true) ∧
    getVal featDoc "category" = some (Value.str "Motion") :=
  ⟨c5_project_filters_exact.1 (some "Motion") true 10 storeFeat featDoc
      (by decide),
   c5_project_filters_exact.2 "Motion" (some true) 10 storeFeat featDoc
      (by decide) (by decide)⟩

/-! ### Round-trip helpers for C1 -/

lemma mem_get_documents_inserted (s : Store) (coll : String) (fields : Doc)
    (filt : Doc) (lim : Int)
    (hm : matchesFilter filt (insertedDoc fields (freshId s)) = true)
    (hl : countColl s coll + 1 ≤ lim.toNat) :
    insertedDoc fields (freshId s) ∈
      get_documents coll filt lim (insertedStore s coll fields) := by
  unfold get_documents insertedStore
  have hfilter : ((s.docs ++ [(coll, insertedDoc fields (freshId s))]).filter
      (fun cd => decide (cd.1 = coll))) =
      s.docs.filter (fun cd => decide (cd.1 = coll)) ++
        [(coll, insertedDoc fields (freshId s))] := by
    simp [List.filter_append]
  rw [hfilter, List.map_append]
  simp only [List.map_cons, List.map_nil]
  have hfl : (((s.docs.filter (fun cd => decide (cd.1 = coll))).map Prod.snd ++
      [insertedDoc fields (freshId s)]).filter (matchesFilter filt)) =
      ((s.docs.filter (fun cd => decide (cd.1 = coll))).map Prod.snd).filter
        (matchesFilter filt) ++ [insertedDoc fields (freshId s)] := by
    simp [List.filter_append, hm]
  rw [hfl]
  have hlen : ((((s.docs.filter (fun cd => decide (cd.1 = coll))).map
      Prod.snd).filter (matchesFilter filt)) ++
      [insertedDoc fields (freshId s)]).length ≤ lim.toNat := by
    have hle : ((((s.docs.filter (fun cd => decide (cd.1 = coll))).map
        Prod.snd).filter (matchesFilter filt))).length ≤
        countColl s coll := by
      have := List.length_filter_le (matchesFilter filt)
        ((s.docs.filter (fun cd => decide (cd.1 = coll))).map Prod.snd)
      simpa [countColl] using this
    simp only [List.length_append, List.length_singleton]
    omega
  rw [List.take_of_length_le hlen]
  exact List.mem_append_right _ (List.mem_singleton.mpr rfl)

lemma insertedDoc_project (p : Project) (i : String) :
    insertedDoc (projectToDoc p) i = projectToDoc p ++ [("_id", Value.str i)] :=
  rfl

lemma serialize_project (p : Project) (i : String) :
    serialize_doc (projectToDoc p ++ [("_id", Value.str i)]) =
      projectToDoc p ++ [("id", Value.str i)] := rfl

lemma insertedDoc_testimonial (t : Testimonial) (i : String) :
    insertedDoc (testimonialToDoc t) i =
      testimonialToDoc t ++ [("_id", Value.str i)] := rfl

lemma serialize_testimonial (t : Testimonial) (i : String) :
    serialize_doc (testimonialToDoc t ++ [("_id", Value.str i)]) =
      testimonialToDoc t ++ [("id", Value.str i)] := rfl

lemma insertedDoc_client (c : Client) (i : String) :
    insertedDoc (clientToDoc c) i = clientToDoc c ++ [("_id", Value.str i)] :=
  rfl

lemma serialize_client (c : Client) (i : String) :
    serialize_doc (clientToDoc c ++ [("_id", Value.str i)]) =
      clientToDoc c ++ [("id", Value.str i)] := rfl

lemma insertedDoc_message (m : Message) (i : String) :
    insertedDoc (messageToDoc m) i = messageToDoc m ++ [("_id", Value.str i)] :=
  rfl

lemma serialize_message (m : Message) (i : String) :
    serialize_doc (messageToDoc m ++ [("_id", Value.str i)]) =
      messageToDoc m ++ [("id", Value.str i)] := rfl

/-- C1: for every valid Project, Testimonial, Client, or Message payload,
the POST creation endpoint (with the store available) returns a non-empty
string id, and a subsequent listing with a filter matching the record and a
sufficient limit includes a serialized record containing exactly the
validated payload's fields plus that id, the internal identifier renamed to
the string field id.  Messages have no HTTP listing endpoint, so their half
uses the same store find-plus-serialize composition the listing endpoints
perform (`find_messages`). -/
theorem c1_create_then_list_roundtrip :
    (∀ (oracle : Nat → Bool) (payload : Doc) (p : Project) (s : Store)
        (cat : Option String) (ft : Option Bool) (lim : Int),
        validateProject payload = Except.ok p →
        oracle s.calls = true →
        matchesFilter (buildProjectFilter cat ft)
          (projectToDoc p ++ [("_id", Value.str (freshId s))]) = true →
        countColl s "project" + 1 ≤ lim.toNat →
        ∃ s2, create_project oracle payload s =
            (Response.json [("id", Value.str (freshId s))], s2) ∧
          freshId s ≠ "" ∧
          (projectToDoc p ++ [("id", Value.str (freshId s))]) ∈
            list_projects cat ft lim s2) ∧
    (∀ (oracle : Nat → Bool) (payload : Doc) (t : Testimonial) (s : Store)
        (lim : Int),
        validateTestimonial payload = Except.ok t →
        oracle s.calls = true →
        countColl s "testimonial" + 1 ≤ lim.toNat →
        ∃ s2, create_testimonial oracle payload s =
            (Response.json [("id", Value.str (freshId s))], s2) ∧
          freshId s ≠ "" ∧
          (testimonialToDoc t ++ [("id", Value.str (freshId s))]) ∈
            list_testimonials lim s2) ∧
    (∀ (oracle : Nat → Bool) (payload : Doc) (c : Client) (s : Store)
        (lim : Int),
        validateClient payload = Except.ok c →
        oracle s.calls = true →
        countColl s "client" + 1 ≤ lim.toNat →
        ∃ s2, create_client oracle payload s =
            (Response.json [("id", Value.str (freshId s))], s2) ∧
          freshId s ≠ "" ∧
          (clientToDoc c ++ [("id", Value.str (freshId s))]) ∈
            list_clients lim s2) ∧
    (∀ (oracle : Nat → Bool) (webhook : Option String) (n : NotifyOutcome)
        (payload : Doc) (m : Message) (s : Store) (lim : Int),
        validateMessage payload = Except.ok m →
        oracle s.calls = true →
        countColl s "message" + 1 ≤ lim.toNat →
        ∃ s2, submit_message oracle webhook n payload s =
            (Response.json [("id", Value.str (freshId s)),
              ("status", Value.str "received")], s2) ∧
          freshId s ≠ "" ∧
          (messageToDoc m ++ [("id", Value.str (freshId s))]) ∈
            find_messages lim s2) := by
  refine ⟨?_, ?_, ?_, ?_⟩
  · intro oracle payload p s cat ft lim hv hor hm hl
    refine ⟨insertedStore s "project" (projectToDoc p), ?_,
      freshId_ne_empty s, ?_⟩
    · simp [create_project, hv, create_document_ok _ _ _ _ hor]
    · have hmem := mem_get_documents_inserted s "project" (projectToDoc p)
        (buildProjectFilter cat ft) lim
        (by rw [insertedDoc_project]; exact hm) hl
      have hser := List.mem_map_of_mem serialize_doc hmem
      rw [insertedDoc_project, serialize_project] at hser
      exact hser
  · intro oracle payload t s lim hv hor hl
    refine ⟨insertedStore s "testimonial" (testimonialToDoc t), ?_,
      freshId_ne_empty s, ?_⟩
    · simp [create_testimonial, hv, create_document_ok _ _ _ _ hor]
    · have hmem := mem_get_documents_inserted s "testimonial"
        (testimonialToDoc t) [] lim rfl hl
      have hser := List.mem_map_of_mem serialize_doc hmem
      rw [insertedDoc_testimonial, serialize_testimonial] at hser
      exact hser
  · intro oracle payload c s lim hv hor hl
    refine ⟨insertedStore s "client" (clientToDoc c), ?_,
      freshId_ne_empty s, ?_⟩
    · simp [create_client, hv, create_document_ok _ _ _ _ hor]
    · have hmem := mem_get_documents_inserted s "client" (clientToDoc c)
        [] lim rfl hl
      have hser := List.mem_map_of_mem serialize_doc hmem
      rw [insertedDoc_client, serialize_client] at hser
      exact hser
  · intro oracle webhook n payload m s lim hv hor hl
    refine ⟨insertedStore s "message" (messageToDoc m), ?_,
      freshId_ne_empty s, ?_⟩
    · simp [submit_message, hv, create_document_ok _ _ _ _ hor]
    · have hmem := mem_get_documents_inserted s "message" (messageToDoc m)
        [] lim rfl hl
      have hser := List.mem_map_of_mem serialize_doc hmem
      rw [insertedDoc_message, serialize_message] at hser
      exact hser

def projPayload0 : Doc :=
  [("title", Value.str "T"), ("category", Value.str "Motion")]

def proj0 : Project := { title := "T", category := "Motion" }

theorem c1_witness :
    ∃ s2, create_project (fun _ => true) projPayload0 store0 =
        (Response.json [("id", Value.str (freshId store0))], s2) ∧
      freshId store0 ≠ "" ∧
      (projectToDoc proj0 ++ [("id", Value.str (freshId store0))]) ∈
        list_projects (some "Motion") none 5 s2 :=
  c1_create_then_list_roundtrip.1 (fun _ => true) projPayload0 proj0 store0
    (some "Motion") none 5 (by decide) rfl (by decide) (by decide)

end StudioApi
